import Mathlib

/-!
Shallow embedding of the product-catalog API (FastAPI/pydantic/SQLAlchemy
service) for verification. Pure functions model the pydantic validators of
app/schemas/product.py, the database-backed business validation of
app/services/validation_service.py, the persistence layer of
app/services/product_service.py, the endpoints of
app/api/v1/endpoints/products.py, and the rate-limiting and authentication
dependencies of app/api/deps.py. Decimal and float quantities are modelled
as rationals; database state is an explicit list of rows; the Redis counter
store is an explicit association list.
-/

/-- Leading and trailing whitespace removal on a character list. -/
def pyStripList (l : List Char) : List Char :=
  ((l.dropWhile Char.isWhitespace).reverse.dropWhile Char.isWhitespace).reverse

/-- Model of Python str.strip for the whitespace characters Lean knows. -/
def pyStrip (s : String) : String := ⟨pyStripList s.data⟩

/-- Model of Python str.lower (ASCII case mapping). -/
def pyLower (s : String) : String := ⟨s.data.map Char.toLower⟩

/-- Helper for pyTitle: walks the characters tracking whether the previous
character was alphabetic; the first letter of each alphabetic run is
uppercased, the rest lowercased, as Python str.title does. -/
def pyTitleGo : Bool → List Char → List Char
  | _, [] => []
  | prevAlpha, c :: cs =>
    if c.isAlpha then
      (if prevAlpha then c.toLower else c.toUpper) :: pyTitleGo true cs
    else
      c :: pyTitleGo false cs

/-- Model of Python str.title. -/
def pyTitle (s : String) : String := ⟨pyTitleGo false s.data⟩

/-- PriceSchema of app/schemas/product.py: a Decimal amount (modelled as a
rational) and a currency code. -/
structure PriceSchema where
  amount : ℚ
  currency : String
deriving DecidableEq

/-- DimensionsSchema of app/schemas/product.py: three float dimensions in
centimeters, modelled as rationals. -/
structure DimensionsSchema where
  width : ℚ
  height : ℚ
  depth : ℚ
deriving DecidableEq

/-- ImageSchema of app/schemas/product.py. The HttpUrl format check that
pydantic performs on url is delegated to the library in the source and is
not modelled; url is kept as a plain string. -/
structure ImageSchema where
  url : String
  alt_text : String
deriving DecidableEq

/-- A raw create payload before pydantic validation: the fields of
ProductCreate as submitted. -/
structure RawProduct where
  name : String
  sku : String
  description : Option String
  price : PriceSchema
  tags : List String
  dimensions : Option DimensionsSchema
  images : Option (List ImageSchema)
  in_stock : Bool
  category_id : Option Int
deriving DecidableEq

/-- A validated ProductCreate payload: same shape as RawProduct, holding the
values produced by the validators (normalized name and tags). -/
structure ProductCreate where
  name : String
  sku : String
  description : Option String
  price : PriceSchema
  tags : List String
  dimensions : Option DimensionsSchema
  images : Option (List ImageSchema)
  in_stock : Bool
  category_id : Option Int
deriving DecidableEq

/-- The forbidden generic words of ProductCreate.validate_name. -/
def forbidden_words : List String := ["producto", "artículo", "item", "thing", "objeto"]

/-- ProductCreate.validate_name: rejects names whose lowercased, stripped
form is a forbidden generic word, and otherwise returns the name stripped
and title-cased. -/
def validate_name (v : String) : Except String String :=
  if forbidden_words.contains (pyStrip (pyLower v)) then
    Except.error "El nombre no puede ser una palabra genérica"
  else
    Except.ok (pyTitle (pyStrip v))

/-- ProductCreate.validate_tags, the per-item tag validator: rejects a tag
that is empty after stripping, or longer than 30 characters; an accepted tag
is returned stripped and lowercased. -/
def validate_tags (v : String) : Except String String :=
  if pyStrip v = "" then
    Except.error "Los tags no pueden estar vacíos"
  else if v.length > 30 then
    Except.error "Cada tag debe tener máximo 30 caracteres"
  else
    Except.ok (pyLower (pyStrip v))

/-- ProductCreate.validate_tags_uniqueness: rejects the (already per-item
normalized) tag list when it has duplicates, which the source detects by
comparing the list length with the size of the set of its elements, here the
length of the deduplicated list, and when it has more than 10 entries. -/
def validate_tags_uniqueness (v : List String) : Except String (List String) :=
  if v.length ≠ v.dedup.length then
    Except.error "No puede haber tags duplicados"
  else if v.length > 10 then
    Except.error "Máximo 10 tags permitidos"
  else
    Except.ok v

/-- ProductCreate.validate_business_rules, the root validator: an
out-of-stock product may not cost more than 1000, and a product whose
dimensions give a volume above 100000 cubic cm must have at least one image
(a missing images list counts as empty, as the falsiness test in the source
does). -/
def validate_business_rules (p : ProductCreate) : Except String ProductCreate :=
  if p.in_stock = false ∧ p.price.amount > 1000 then
    Except.error "Productos fuera de stock no pueden tener precio mayor a $1000"
  else
    match p.dimensions with
    | some d =>
      if d.width * d.height * d.depth > 100000 ∧ p.images.getD [] = [] then
        Except.error "Productos grandes requieren al menos una imagen"
      else
        Except.ok p
    | none => Except.ok p

/-- The seven accepted currency codes of PriceSchema.validate_currency_code. -/
def valid_currencies : List String := ["USD", "EUR", "COP", "GBP", "JPY", "CAD", "AUD"]

/-- PriceSchema.validate_currency_code: membership in the fixed currency
set. The source error message interpolates the set in unspecified order; a
fixed message is used here. -/
def validate_currency_code (v : String) : Except String String :=
  if valid_currencies.contains v then
    Except.ok v
  else
    Except.error "Moneda no válida"

/-- The SKU pattern of ProductBase: 5 to 20 characters, each an uppercase
letter, a digit, or a dash. -/
def skuPatternOk (s : String) : Bool :=
  decide (5 ≤ s.length) && decide (s.length ≤ 20) &&
    s.data.all (fun c => (decide ('A' ≤ c) && decide (c ≤ 'Z')) || c.isDigit || c == '-')

/-- The currency pattern of PriceSchema: exactly three uppercase letters. -/
def currencyPatternOk (s : String) : Bool :=
  decide (s.length = 3) && s.data.all (fun c => decide ('A' ≤ c) && decide (c ≤ 'Z'))

/-- Field validation of PriceSchema: positive amount, pattern and currency
set membership. The max_digits and decimal_places bounds of the Decimal
field are not modelled. -/
def priceParse (p : PriceSchema) : Except String PriceSchema :=
  if p.amount ≤ 0 then Except.error "El precio debe ser mayor que 0"
  else if ¬ currencyPatternOk p.currency then Except.error "La moneda no cumple el patrón"
  else
    match validate_currency_code p.currency with
    | Except.error e => Except.error e
    | Except.ok c => Except.ok { amount := p.amount, currency := c }

/-- Field and root validation of DimensionsSchema: each dimension positive
and at most 500 cm. The source message names the offending dimension; a
fixed message is used here. -/
def dimensionsParse (d : DimensionsSchema) : Except String DimensionsSchema :=
  if d.width ≤ 0 ∨ d.height ≤ 0 ∨ d.depth ≤ 0 then
    Except.error "Las dimensiones deben ser mayores que 0"
  else if d.width > 500 ∨ d.height > 500 ∨ d.depth > 500 then
    Except.error "La dimension no puede exceder 500cm"
  else
    Except.ok d

/-- Field validation of ImageSchema: alt_text between 1 and 100 characters.
The HttpUrl format check is delegated to the library and not modelled. -/
def imageParse (img : ImageSchema) : Except String ImageSchema :=
  if img.alt_text.length < 1 ∨ img.alt_text.length > 100 then
    Except.error "alt_text fuera de rango"
  else
    Except.ok img

/-- Per-item validation of a list, as pydantic each_item validators run:
the first failing item fails the list, otherwise all results are collected
in order. -/
def mapExcept (f : α → Except String β) : List α → Except String (List β)
  | [] => Except.ok []
  | a :: as =>
    match f a with
    | Except.error e => Except.error e
    | Except.ok b =>
      match mapExcept f as with
      | Except.error e => Except.error e
      | Except.ok bs => Except.ok (b :: bs)

/-- Validation of an optional field: None passes through, a present value
is validated. -/
def optionParse (f : α → Except String β) : Option α → Except String (Option β)
  | none => Except.ok none
  | some a =>
    match f a with
    | Except.error e => Except.error e
    | Except.ok b => Except.ok (some b)

/-- Field-level validation of ProductCreate: the Field constraints and the
field validators of the schema, in pydantic order (field constraints before
custom validators, fields before root validators). -/
def parseFields (raw : RawProduct) : Except String ProductCreate :=
  if raw.name.length < 3 ∨ raw.name.length > 100 then
    Except.error "El nombre debe tener entre 3 y 100 caracteres"
  else
    match validate_name raw.name with
    | Except.error e => Except.error e
    | Except.ok vname =>
      if ¬ skuPatternOk raw.sku then
        Except.error "El SKU no cumple el patrón"
      else if (match raw.description with | some d => decide (d.length > 500) | none => false : Bool) then
        Except.error "La descripción debe tener máximo 500 caracteres"
      else
        match priceParse raw.price with
        | Except.error e => Except.error e
        | Except.ok vprice =>
          match mapExcept validate_tags raw.tags with
          | Except.error e => Except.error e
          | Except.ok ntags =>
            match validate_tags_uniqueness ntags with
            | Except.error e => Except.error e
            | Except.ok vtags =>
              match optionParse dimensionsParse raw.dimensions with
              | Except.error e => Except.error e
              | Except.ok vdims =>
                match optionParse (mapExcept imageParse) raw.images with
                | Except.error e => Except.error e
                | Except.ok vimages =>
                  if (match raw.category_id with | some c => decide (c ≤ 0) | none => false : Bool) then
                    Except.error "category_id debe ser mayor que 0"
                  else
                    Except.ok { name := vname, sku := raw.sku,
                                description := raw.description, price := vprice,
                                tags := vtags, dimensions := vdims,
                                images := vimages, in_stock := raw.in_stock,
                                category_id := raw.category_id }

/-- Structural validation of a ProductCreate payload: field validation
followed by the root validator validate_business_rules. -/
def productCreateParse (raw : RawProduct) : Except String ProductCreate :=
  match parseFields raw with
  | Except.error e => Except.error e
  | Except.ok p => validate_business_rules p

/-- A persisted products row, the Product model of app/models/product.py.
The JSON dimensions and images columns keep their schema shapes; created_at
and updated_at are abstract clock readings. -/
structure Product where
  id : Int
  name : String
  sku : String
  description : Option String
  price_amount : ℚ
  price_currency : String
  tags : List String
  dimensions : Option DimensionsSchema
  images : List ImageSchema
  in_stock : Bool
  category_id : Option Int
  created_at : Nat
  updated_at : Option Nat
deriving DecidableEq

/-- The database state seen by one request: the products table, the id the
database will assign next, and the server clock used for created_at. -/
structure DBState where
  products : List Product
  nextId : Int
  now : Nat
deriving DecidableEq

/-- ValidationService.validate_business_constraints: queries the products
table for a row with the payload sku and one with the payload name, and
returns the field-to-message error mapping (an ordered association list, as
a Python dict is). -/
def validate_business_constraints (db : DBState) (product_data : ProductCreate) :
    List (String × String) :=
  (if db.products.any (fun q => q.sku == product_data.sku) then
    [("sku", "SKU ya existe en el sistema")]
  else []) ++
  (if db.products.any (fun q => q.name == product_data.name) then
    [("name", "Ya existe un producto con este nombre")]
  else [])

/-- ProductService.create_product: builds the row from the validated
payload (denormalizing price into two columns, defaulting a falsy images
value to the empty list), inserts it, and returns the refreshed row together
with the new database state. -/
def service_create_product (db : DBState) (product_data : ProductCreate) :
    Product × DBState :=
  let db_product : Product :=
    { id := db.nextId
      name := product_data.name
      sku := product_data.sku
      description := product_data.description
      price_amount := product_data.price.amount
      price_currency := product_data.price.currency
      tags := product_data.tags
      dimensions := product_data.dimensions
      images := product_data.images.getD []
      in_stock := product_data.in_stock
      category_id := product_data.category_id
      created_at := db.now
      updated_at := none }
  (db_product, { db with products := db.products ++ [db_product],
                         nextId := db.nextId + 1 })

/-- ProductResponse of app/schemas/product.py. -/
structure ProductResponse where
  id : Int
  name : String
  sku : String
  description : Option String
  price : PriceSchema
  tags : List String
  dimensions : Option DimensionsSchema
  images : Option (List ImageSchema)
  in_stock : Bool
  category_id : Option Int
  created_at : Nat
  updated_at : Option Nat
deriving DecidableEq

/-- ProductService._to_response: rebuilds the response schema from the row,
reassembling the price and replacing falsy tags and images values by the
empty list. -/
def to_response (db_product : Product) : ProductResponse :=
  { id := db_product.id
    name := db_product.name
    sku := db_product.sku
    description := db_product.description
    price := { amount := db_product.price_amount,
               currency := db_product.price_currency }
    tags := if db_product.tags.isEmpty then [] else db_product.tags
    dimensions := db_product.dimensions
    images := some (if db_product.images.isEmpty then [] else db_product.images)
    in_stock := db_product.in_stock
    category_id := db_product.category_id
    created_at := db_product.created_at
    updated_at := db_product.updated_at }

/-- Outcome of the creation endpoint: a 201 with the response body, or an
HTTP error with a status, a message and a field-to-message error mapping. -/
inductive CreateResult where
  | created (status : Nat) (body : ProductResponse)
  | failed (status : Nat) (message : String) (errors : List (String × String))
deriving DecidableEq

/-- The POST endpoint create_product of app/api/v1/endpoints/products.py,
acting on an already structurally validated payload: business validation
first; a non-empty error mapping fails the whole request with 422 and that
mapping, leaving the database untouched; an empty mapping proceeds to
persistence and answers 201 with the response body. -/
def create_product (db : DBState) (product_data : ProductCreate) :
    CreateResult × DBState :=
  if (validate_business_constraints db product_data).isEmpty then
    (CreateResult.created 201 (to_response (service_create_product db product_data).1),
     (service_create_product db product_data).2)
  else
    (CreateResult.failed 422 "Errores de validación de negocio"
      (validate_business_constraints db product_data), db)

/-- The creation endpoint including the framework step: the body is parsed
into ProductCreate first (a structural failure is answered 422 by the
RequestValidationError handler, before the handler body and any database
write), then the handler body runs. -/
def create_endpoint (db : DBState) (raw : RawProduct) : CreateResult × DBState :=
  match productCreateParse raw with
  | Except.error msg =>
    (CreateResult.failed 422 "Error de validación en los datos enviados" [("detail", msg)], db)
  | Except.ok product_data => create_product db product_data

/-- ValidationResponse of app/schemas/response.py. -/
structure ValidationResponse where
  valid : Bool
  errors : Option (List (String × String))
  message : String
deriving DecidableEq

/-- The POST validate endpoint validate_product: runs business validation
and reports the outcome without creating anything. -/
def validate_product (db : DBState) (product_data : ProductCreate) :
    ValidationResponse × DBState :=
  let business_errors := validate_business_constraints db product_data
  ({ valid := business_errors.isEmpty
     errors := if business_errors.isEmpty then none else some business_errors
     message := if business_errors.isEmpty then "Datos válidos" else "Se encontraron errores" },
   db)

/-- A sequential run of creation requests, each seeing the state the
previous one left. -/
def run_creates (db : DBState) (ps : List ProductCreate) : DBState :=
  ps.foldl (fun s p => (create_product s p).2) db

/-- The catalog uniqueness invariant: all SKUs pairwise distinct and all
names pairwise distinct. -/
def DistinctCatalog (db : DBState) : Prop :=
  db.products.Pairwise (fun p q => p.sku ≠ q.sku) ∧
  db.products.Pairwise (fun p q => p.name ≠ q.name)

/-- One entry of the Redis counter store: the counter value and the
time-to-live it was set with. -/
structure RedisEntry where
  value : Nat
  ttl : Nat
deriving DecidableEq

/-- The Redis counter store, as an association list from keys to entries. -/
def RedisState : Type := List (String × RedisEntry)

/-- Redis GET on the counter store. -/
def redis_get (st : RedisState) (k : String) : Option RedisEntry :=
  List.lookup k st

/-- Redis SETEX: stores the value under the key with the time-to-live,
replacing any previous entry. -/
def redis_setex (st : RedisState) (k : String) (ttl : Nat) (v : Nat) : RedisState :=
  (k, { value := v, ttl := ttl }) :: st.filter (fun e => e.1 ≠ k)

/-- Redis INCR on an existing key: increments the stored value, keeping the
entry and its time-to-live. -/
def redis_incr (st : RedisState) (k : String) : RedisState :=
  st.map (fun e => if e.1 = k then (e.1, { value := e.2.value + 1, ttl := e.2.ttl }) else e)

/-- The counter key for an IP, as the source builds it. -/
def rlKey (request_ip : String) : String := "rate_limit:" ++ request_ip

/-- The detail string of the 429 response, reporting the configured maximum
and window as the source f-string does. -/
def rate_limit_detail (max_requests window_minutes : Nat) : String :=
  "Rate limit excedido. Máximo " ++ toString max_requests ++
    " requests por " ++ toString window_minutes ++ " minutos"

/-- Outcome of the rate-limit dependency: the request is allowed, or fails
with 429 and a detail string. -/
inductive RateResult where
  | allowed
  | tooMany (status : Nat) (detail : String)
deriving DecidableEq

/-- The rate_limiter check produced by the rate_limit factory of
app/api/deps.py: no counter creates one at 1 with a time-to-live of the
window in seconds and allows; a counter at or above the maximum fails with
429 reporting the configuration; otherwise the counter is incremented and
the request allowed. -/
def rate_limiter (max_requests window_minutes : Nat) (request_ip : String)
    (st : RedisState) : RateResult × RedisState :=
  match redis_get st (rlKey request_ip) with
  | none => (RateResult.allowed, redis_setex st (rlKey request_ip) (window_minutes * 60) 1)
  | some current =>
    if current.value ≥ max_requests then
      (RateResult.tooMany 429 (rate_limit_detail max_requests window_minutes), st)
    else
      (RateResult.allowed, redis_incr st (rlKey request_ip))

/-- The User model referenced by app/api/deps.py, reduced to the fields the
dependencies read. -/
structure User where
  id : Int
  is_active : Bool
  is_admin : Bool
deriving DecidableEq

/-- A decoded JWT payload: the optional subject claim, modelled directly as
the user id it carries. -/
structure JwtPayload where
  sub : Option Int
deriving DecidableEq

/-- The environment of the authentication dependencies: the JWT decoding
function (None models a JWTError) and the users table. -/
structure AuthEnv where
  decode : String → Option JwtPayload
  users : List User

/-- Outcome of an authentication dependency: a resolved user, or an HTTP
error with status and detail. -/
inductive AuthResult where
  | ok (u : User)
  | httpError (status : Nat) (detail : String)
deriving DecidableEq

/-- get_current_user of app/api/deps.py, paired with the number of token
decodings it performs: 401 when decoding fails, the subject claim is
absent, or no user with that id exists; the resolved user otherwise. -/
def get_current_user (env : AuthEnv) (token : String) : AuthResult × Nat :=
  match env.decode token with
  | none => (AuthResult.httpError 401 "No se pudieron validar las credenciales", 1)
  | some payload =>
    match payload.sub with
    | none => (AuthResult.httpError 401 "No se pudieron validar las credenciales", 1)
    | some user_id =>
      match env.users.find? (fun u => u.id == user_id) with
      | none => (AuthResult.httpError 401 "No se pudieron validar las credenciales", 1)
      | some u => (AuthResult.ok u, 1)

/-- get_current_active_user: reuses the identity resolved by
get_current_user (performing no decoding of its own) and fails with 400 when
the user is inactive. -/
def get_current_active_user (env : AuthEnv) (token : String) : AuthResult × Nat :=
  match get_current_user env token with
  | (AuthResult.ok u, n) =>
    (if u.is_active then AuthResult.ok u
     else AuthResult.httpError 400 "Usuario inactivo", n)
  | (e, n) => (e, n)

/-- get_current_admin_user: reuses the identity resolved by
get_current_active_user (performing no decoding of its own) and fails with
403 when the user is not an administrator. -/
def get_current_admin_user (env : AuthEnv) (token : String) : AuthResult × Nat :=
  match get_current_active_user env token with
  | (AuthResult.ok u, n) =>
    (if u.is_admin then AuthResult.ok u
     else AuthResult.httpError 403 "No tienes permisos suficientes", n)
  | (e, n) => (e, n)

/-- The full tag validation chain as pydantic runs it: the per-item
validator over the list, then the list-level uniqueness validator on the
normalized results. -/
def tags_pipeline (ts : List String) : Except String (List String) :=
  match mapExcept validate_tags ts with
  | Except.error e => Except.error e
  | Except.ok ntags => validate_tags_uniqueness ntags

/-- An empty initial database state. -/
def db0 : DBState := { products := [], nextId := 1, now := 0 }

/-- A well-formed raw creation payload. -/
def rawSilla : RawProduct :=
  { name := "Silla Roja", sku := "ABC-12345", description := none,
    price := { amount := 10, currency := "USD" }, tags := [],
    dimensions := none, images := some [], in_stock := true, category_id := none }

/-- A second well-formed raw payload reusing the SKU of rawSilla under a
different name. -/
def rawMesa : RawProduct := { rawSilla with name := "Mesa Verde" }

/-- The validated form of rawSilla. -/
def pcSilla : ProductCreate :=
  { name := "Silla Roja", sku := "ABC-12345", description := none,
    price := { amount := 10, currency := "USD" }, tags := [],
    dimensions := none, images := some [], in_stock := true, category_id := none }

/-- A validated payload with a fresh SKU and name. -/
def pcMesa : ProductCreate :=
  { pcSilla with name := "Mesa Verde", sku := "DEF-67890" }

/-- The database state after creating pcSilla in the empty state. -/
def dbDup : DBState := (create_product db0 pcSilla).2

/-- A validated out-of-stock payload priced above 1000. -/
def pcStock : ProductCreate :=
  { name := "Sofa Caro", sku := "SOF-99999", description := none,
    price := { amount := 2000, currency := "USD" }, tags := [],
    dimensions := none, images := some [], in_stock := false, category_id := none }

/-- The raw form of pcStock. -/
def rawStock : RawProduct :=
  { name := "Sofa Caro", sku := "SOF-99999", description := none,
    price := { amount := 2000, currency := "USD" }, tags := [],
    dimensions := none, images := some [], in_stock := false, category_id := none }

/-- An out-of-stock payload priced at or below 1000. -/
def pcStockOk : ProductCreate :=
  { pcStock with price := { amount := 900, currency := "USD" } }

/-- A validated payload whose volume exceeds 100000 cubic cm with no
images. -/
def pcBig : ProductCreate :=
  { name := "Ropero Blanco", sku := "ROP-55555", description := none,
    price := { amount := 100, currency := "USD" }, tags := [],
    dimensions := some { width := 50, height := 50, depth := 50 },
    images := none, in_stock := true, category_id := none }

/-- The raw form of pcBig. -/
def rawBig : RawProduct :=
  { name := "Ropero Blanco", sku := "ROP-55555", description := none,
    price := { amount := 100, currency := "USD" }, tags := [],
    dimensions := some { width := 50, height := 50, depth := 50 },
    images := none, in_stock := true, category_id := none }

/-- The same large payload with one image attached. -/
def pcBigImg : ProductCreate :=
  { pcBig with images := some [{ url := "https://img.example/ropero", alt_text := "foto" }] }

/-- A valid payload whose images field is the null value rather than a
list. -/
def pcNullImages : ProductCreate :=
  { name := "Lampara Gris", sku := "LMP-11111", description := none,
    price := { amount := 20, currency := "USD" }, tags := [],
    dimensions := none, images := none, in_stock := true, category_id := none }

/-- The raw form of pcNullImages. -/
def rawNullImages : RawProduct :=
  { name := "Lampara Gris", sku := "LMP-11111", description := none,
    price := { amount := 20, currency := "USD" }, tags := [],
    dimensions := none, images := none, in_stock := true, category_id := none }

/-- A raw payload whose name is a forbidden generic word. -/
def rawItem : RawProduct := { rawSilla with name := " ITEM " }

/-- A concrete authentication environment: one active administrator with id
1, one inactive ordinary user with id 2, one token per user, and a payload
without a subject claim for the token tok-nosub. -/
def envW : AuthEnv :=
  { decode := fun t =>
      if t = "tok-admin" then some { sub := some 1 }
      else if t = "tok-inactive" then some { sub := some 2 }
      else if t = "tok-nosub" then some { sub := none }
      else if t = "tok-ghost" then some { sub := some 99 }
      else none
    users := [{ id := 1, is_active := true, is_admin := true },
              { id := 2, is_active := false, is_admin := false }] }

lemma validate_name_ok (v r : String) (h : validate_name v = Except.ok r) :
    r = pyTitle (pyStrip v) := by
  unfold validate_name at h
  split at h
  · cases h
  · injection h with h
    exact h.symm

lemma validate_tags_ok (t r : String) (h : validate_tags t = Except.ok r) :
    r = pyLower (pyStrip t) := by
  unfold validate_tags at h
  split at h
  · cases h
  · split at h
    · cases h
    · injection h with h
      exact h.symm

lemma validate_tags_uniqueness_ok (v r : List String)
    (h : validate_tags_uniqueness v = Except.ok r) : r = v := by
  unfold validate_tags_uniqueness at h
  split at h
  · cases h
  · split at h
    · cases h
    · injection h with h
      exact h.symm

lemma priceParse_ok (p q : PriceSchema) (h : priceParse p = Except.ok q) : q = p := by
  unfold priceParse at h
  split at h
  · cases h
  · split at h
    · cases h
    · revert h
      cases hc : validate_currency_code p.currency with
      | error e => intro h; cases h
      | ok c =>
        intro h
        injection h with h
        unfold validate_currency_code at hc
        split at hc
        · injection hc with hc
          subst hc
          exact h.symm
        · cases hc

lemma dimensionsParse_ok (d e : DimensionsSchema)
    (h : dimensionsParse d = Except.ok e) : e = d := by
  unfold dimensionsParse at h
  split at h
  · cases h
  · split at h
    · cases h
    · injection h with h
      exact h.symm

lemma imageParse_ok (i j : ImageSchema) (h : imageParse i = Except.ok j) : j = i := by
  unfold imageParse at h
  split at h
  · cases h
  · injection h with h
    exact h.symm

lemma mapExcept_imageParse_ok (l r : List ImageSchema)
    (h : mapExcept imageParse l = Except.ok r) : r = l := by
  induction l generalizing r with
  | nil =>
    unfold mapExcept at h
    injection h with h
    exact h.symm
  | cons a as ih =>
    unfold mapExcept at h
    revert h
    cases ha : imageParse a with
    | error e => intro h; cases h
    | ok b =>
      cases has : mapExcept imageParse as with
      | error e => intro h; cases h
      | ok bs =>
        intro h
        injection h with h
        subst h
        rw [ih bs has, imageParse_ok a b ha]

lemma mapExcept_validate_tags_ok (ts rs : List String)
    (h : mapExcept validate_tags ts = Except.ok rs) :
    rs = ts.map (fun t => pyLower (pyStrip t)) := by
  induction ts generalizing rs with
  | nil =>
    unfold mapExcept at h
    injection h with h
    simp [h.symm]
  | cons a as ih =>
    unfold mapExcept at h
    revert h
    cases ha : validate_tags a with
    | error e => intro h; cases h
    | ok b =>
      cases has : mapExcept validate_tags as with
      | error e => intro h; cases h
      | ok bs =>
        intro h
        injection h with h
        subst h
        simp [ih bs has, validate_tags_ok a b ha]

lemma optionParse_dimensions_ok (o r : Option DimensionsSchema)
    (h : optionParse dimensionsParse o = Except.ok r) : r = o := by
  cases o with
  | none =>
    unfold optionParse at h
    injection h with h
    exact h.symm
  | some d =>
    simp only [optionParse] at h
    revert h
    cases hd : dimensionsParse d with
    | error e => intro h; cases h
    | ok b =>
      intro h
      injection h with h
      rw [h.symm, dimensionsParse_ok d b hd]

lemma optionParse_images_ok (o r : Option (List ImageSchema))
    (h : optionParse (mapExcept imageParse) o = Except.ok r) : r = o := by
  cases o with
  | none =>
    unfold optionParse at h
    injection h with h
    exact h.symm
  | some l =>
    simp only [optionParse] at h
    revert h
    cases hl : mapExcept imageParse l with
    | error e => intro h; cases h
    | ok b =>
      intro h
      injection h with h
      rw [h.symm, mapExcept_imageParse_ok l b hl]

lemma validate_business_rules_ok (p q : ProductCreate)
    (h : validate_business_rules p = Except.ok q) : q = p := by
  unfold validate_business_rules at h
  split at h
  · cases h
  · split at h
    · split at h
      · cases h
      · injection h with h
        exact h.symm
    · injection h with h
      exact h.symm

lemma parseFields_ok (raw : RawProduct) (pc : ProductCreate)
    (h : parseFields raw = Except.ok pc) :
    pc.name = pyTitle (pyStrip raw.name) ∧ pc.sku = raw.sku ∧
    pc.description = raw.description ∧ pc.price = raw.price ∧
    pc.tags = raw.tags.map (fun t => pyLower (pyStrip t)) ∧
    pc.dimensions = raw.dimensions ∧ pc.images = raw.images ∧
    pc.in_stock = raw.in_stock ∧ pc.category_id = raw.category_id := by
  unfold parseFields at h
  split at h
  · cases h
  split at h
  · cases h
  rename_i vname hname
  split at h
  · cases h
  split at h
  · cases h
  split at h
  · cases h
  rename_i vprice hprice
  split at h
  · cases h
  rename_i ntags htags
  split at h
  · cases h
  rename_i vtags huniq
  split at h
  · cases h
  rename_i vdims hdims
  split at h
  · cases h
  rename_i vimages himages
  split at h
  · cases h
  injection h with h
  subst h
  refine ⟨validate_name_ok _ _ hname, rfl, rfl, priceParse_ok _ _ hprice, ?_,
          optionParse_dimensions_ok _ _ hdims, optionParse_images_ok _ _ himages,
          rfl, rfl⟩
  have h1 := validate_tags_uniqueness_ok _ _ huniq
  have h2 := mapExcept_validate_tags_ok _ _ htags
  simpa [h1] using h2

lemma productCreateParse_ok (raw : RawProduct) (pc : ProductCreate)
    (h : productCreateParse raw = Except.ok pc) :
    (pc.name = pyTitle (pyStrip raw.name) ∧ pc.sku = raw.sku ∧
     pc.description = raw.description ∧ pc.price = raw.price ∧
     pc.tags = raw.tags.map (fun t => pyLower (pyStrip t)) ∧
     pc.dimensions = raw.dimensions ∧ pc.images = raw.images ∧
     pc.in_stock = raw.in_stock ∧ pc.category_id = raw.category_id) ∧
    validate_business_rules pc = Except.ok pc := by
  unfold productCreateParse at h
  revert h
  cases hf : parseFields raw with
  | error e => intro h; cases h
  | ok p =>
    intro h
    have hp := validate_business_rules_ok _ _ h
    subst hp
    exact ⟨parseFields_ok _ _ hf, h⟩

lemma validate_business_constraints_empty (db : DBState) (pc : ProductCreate) :
    validate_business_constraints db pc = [] ↔
      db.products.any (fun q => q.sku == pc.sku) = false ∧
      db.products.any (fun q => q.name == pc.name) = false := by
  unfold validate_business_constraints
  cases h1 : db.products.any (fun q => q.sku == pc.sku) <;>
    cases h2 : db.products.any (fun q => q.name == pc.name) <;>
      simp [h1, h2]

lemma ite_isEmpty_self (l : List α) : (if l.isEmpty then [] else l) = l := by
  cases l <;> simp

lemma redis_get_setex (st : RedisState) (k : String) (ttl v : Nat) :
    redis_get (redis_setex st k ttl v) k = some { value := v, ttl := ttl } := by
  simp [redis_get, redis_setex, List.lookup]

lemma validate_name_forbidden (v : String)
    (h : pyStrip (pyLower v) ∈ forbidden_words) :
    validate_name v = Except.error "El nombre no puede ser una palabra genérica" := by
  unfold validate_name
  rw [if_pos]
  exact List.elem_eq_true_of_mem h

lemma stock_rule_error (pc : ProductCreate) (h1 : pc.in_stock = false)
    (h2 : pc.price.amount > 1000) :
    validate_business_rules pc =
      Except.error "Productos fuera de stock no pueden tener precio mayor a $1000" := by
  unfold validate_business_rules
  rw [if_pos ⟨h1, h2⟩]

lemma volume_rule_rejects (pc : ProductCreate) (d : DimensionsSchema)
    (hd : pc.dimensions = some d) (hv : d.width * d.height * d.depth > 100000)
    (hi : pc.images.getD [] = []) :
    (validate_business_rules pc).isOk = false := by
  unfold validate_business_rules
  split
  · rfl
  · rw [hd]
    simp only []
    rw [if_pos ⟨hv, hi⟩]
    rfl

lemma create_step_distinct (db : DBState) (pc : ProductCreate)
    (h : DistinctCatalog db) : DistinctCatalog (create_product db pc).2 := by
  unfold create_product
  split
  · rename_i he
    rw [List.isEmpty_iff, validate_business_constraints_empty] at he
    obtain ⟨hs, hn⟩ := he
    obtain ⟨hps, hpn⟩ := h
    rw [List.any_eq_false] at hs hn
    constructor
    · simp only [service_create_product, DistinctCatalog, List.pairwise_append]
      refine ⟨hps, List.pairwise_singleton _ _, ?_⟩
      intro a ha b hb
      simp only [List.mem_singleton] at hb
      subst hb
      intro hcon
      exact hs a ha (by simp [hcon])
    · simp only [service_create_product, DistinctCatalog, List.pairwise_append]
      refine ⟨hpn, List.pairwise_singleton _ _, ?_⟩
      intro a ha b hb
      simp only [List.mem_singleton] at hb
      subst hb
      intro hcon
      exact hn a ha (by simp [hcon])
  · exact h

/-- C1: the creation endpoint runs business validation first; whenever the
field-to-message error mapping is non-empty it fails the whole request with
422 carrying that mapping and persists nothing, and only when the mapping is
empty does it proceed to persist; concretely, submitting the SKU ABC-12345
twice makes the first request succeed with 201 and the second fail with 422
reporting sku: SKU ya existe en el sistema. -/
theorem C1_create_gated_by_business_validation :
    (∀ (db : DBState) (pc : ProductCreate),
        validate_business_constraints db pc ≠ [] →
        create_product db pc =
          (CreateResult.failed 422 "Errores de validación de negocio"
            (validate_business_constraints db pc), db)) ∧
    (∀ (db : DBState) (pc : ProductCreate),
        validate_business_constraints db pc = [] →
        create_product db pc =
          (CreateResult.created 201 (to_response (service_create_product db pc).1),
           (service_create_product db pc).2)) ∧
    ((create_endpoint db0 rawSilla).1 =
        CreateResult.created 201 (to_response (service_create_product db0 pcSilla).1) ∧
     (create_endpoint (create_endpoint db0 rawSilla).2 rawMesa).1 =
        CreateResult.failed 422 "Errores de validación de negocio"
          [("sku", "SKU ya existe en el sistema")]) := by
  refine ⟨?_, ?_, rfl, rfl⟩
  · intro db pc hne
    unfold create_product
    split
    · rename_i he
      exact absurd (List.isEmpty_iff.mp he) hne
    · rfl
  · intro db pc he
    have h : (validate_business_constraints db pc).isEmpty = true := by
      rw [he]; rfl
    simp [create_product, h]

/-- C1 witness: the failing branch at a database already holding the SKU and
name of pcSilla, and the persisting branch at the empty database. -/
theorem C1_witness :
    create_product dbDup pcSilla =
      (CreateResult.failed 422 "Errores de validación de negocio"
        (validate_business_constraints dbDup pcSilla), dbDup) ∧
    create_product db0 pcMesa =
      (CreateResult.created 201 (to_response (service_create_product db0 pcMesa).1),
       (service_create_product db0 pcMesa).2) :=
  ⟨C1_create_gated_by_business_validation.1 dbDup pcSilla (by decide),
   C1_create_gated_by_business_validation.2.1 db0 pcMesa (by decide)⟩

/-- C2: starting from a state whose product SKUs are pairwise distinct and
whose product names are pairwise distinct, any sequential run of creation
requests leaves the catalog with all SKUs pairwise distinct and all names
pairwise distinct. -/
theorem C2_sku_name_uniqueness_preserved (db : DBState) (ps : List ProductCreate)
    (h : DistinctCatalog db) : DistinctCatalog (run_creates db ps) := by
  induction ps generalizing db with
  | nil => exact h
  | cons p ps ih => exact ih _ (create_step_distinct db p h)

/-- C2 witness: a run of three creation requests, one of which repeats an
already-taken SKU and name, keeps the catalog distinct when started from the
empty state. -/
theorem C2_witness : DistinctCatalog (run_creates db0 [pcSilla, pcMesa, pcSilla]) :=
  C2_sku_name_uniqueness_preserved db0 [pcSilla, pcMesa, pcSilla]
    ⟨List.Pairwise.nil, List.Pairwise.nil⟩

/-- C3: the rate-limit check is fixed-window counting: with no counter for
the key it creates one at value 1 with a time-to-live of the window length
in seconds and allows; with a counter strictly below the maximum it
increments and allows; with a counter at or above the maximum it fails with
429 reporting the configured maximum and window; and with max_requests 2 and
window_minutes 1, the third request of one IP inside the window fails with
429. -/
theorem C3_rate_limiter_fixed_window :
    (∀ (max_requests window_minutes : Nat) (ip : String) (st : RedisState),
        redis_get st (rlKey ip) = none →
        rate_limiter max_requests window_minutes ip st =
          (RateResult.allowed, redis_setex st (rlKey ip) (window_minutes * 60) 1) ∧
        redis_get (rate_limiter max_requests window_minutes ip st).2 (rlKey ip) =
          some { value := 1, ttl := window_minutes * 60 }) ∧
    (∀ (max_requests window_minutes : Nat) (ip : String) (st : RedisState)
        (e : RedisEntry), redis_get st (rlKey ip) = some e →
        e.value < max_requests →
        rate_limiter max_requests window_minutes ip st =
          (RateResult.allowed, redis_incr st (rlKey ip))) ∧
    (∀ (max_requests window_minutes : Nat) (ip : String) (st : RedisState)
        (e : RedisEntry), redis_get st (rlKey ip) = some e →
        e.value ≥ max_requests →
        rate_limiter max_requests window_minutes ip st =
          (RateResult.tooMany 429 (rate_limit_detail max_requests window_minutes), st)) ∧
    ((rate_limiter 2 1 "203.0.113.7" []).1 = RateResult.allowed ∧
     (rate_limiter 2 1 "203.0.113.7" (rate_limiter 2 1 "203.0.113.7" []).2).1 =
        RateResult.allowed ∧
     (rate_limiter 2 1 "203.0.113.7"
        (rate_limiter 2 1 "203.0.113.7" (rate_limiter 2 1 "203.0.113.7" []).2).2).1 =
        RateResult.tooMany 429 (rate_limit_detail 2 1)) := by
  refine ⟨?_, ?_, ?_, by decide, by decide, by decide⟩
  · intro maxR winM ip st h
    constructor
    · simp [rate_limiter, h]
    · simp only [rate_limiter, h]
      exact redis_get_setex st (rlKey ip) (winM * 60) 1
  · intro maxR winM ip st e h hlt
    simp only [rate_limiter, h]
    rw [if_neg (Nat.not_le.mpr hlt)]
  · intro maxR winM ip st e h hge
    simp only [rate_limiter, h]
    rw [if_pos hge]

/-- C3 witness: the creation branch on the empty store and the rejection
branch on a store whose counter already reached the maximum. -/
theorem C3_witness :
    (rate_limiter 2 1 "198.51.100.9" [] =
      (RateResult.allowed, redis_setex [] (rlKey "198.51.100.9") (1 * 60) 1) ∧
     redis_get (rate_limiter 2 1 "198.51.100.9" []).2 (rlKey "198.51.100.9") =
       some { value := 1, ttl := 1 * 60 }) ∧
    rate_limiter 2 1 "198.51.100.9"
        [("rate_limit:198.51.100.9", { value := 2, ttl := 60 })] =
      (RateResult.tooMany 429 (rate_limit_detail 2 1),
       [("rate_limit:198.51.100.9", { value := 2, ttl := 60 })]) :=
  ⟨C3_rate_limiter_fixed_window.1 2 1 "198.51.100.9" [] rfl,
   C3_rate_limiter_fixed_window.2.2.1 2 1 "198.51.100.9"
     [("rate_limit:198.51.100.9", { value := 2, ttl := 60 })]
     { value := 2, ttl := 60 } rfl (by decide)⟩

/-- C8: the validate-without-creating endpoint is side-effect free and
idempotent: it returns the database unchanged, and calling it again on the
state the first call returned, with the same input, yields the identical
response. -/
theorem C8_validate_idempotent_side_effect_free (db : DBState) (pc : ProductCreate) :
    (validate_product db pc).2 = db ∧
    (validate_product (validate_product db pc).2 pc).1 = (validate_product db pc).1 :=
  ⟨rfl, rfl⟩

lemma get_current_user_snd (env : AuthEnv) (token : String) :
    (get_current_user env token).2 = 1 := by
  unfold get_current_user
  split
  · rfl
  · split
    · rfl
    · split <;> rfl

lemma get_current_active_user_snd (env : AuthEnv) (token : String) :
    (get_current_active_user env token).2 = (get_current_user env token).2 := by
  unfold get_current_active_user
  rcases hg : get_current_user env token with ⟨r, n⟩
  cases r <;> rfl

lemma get_current_admin_user_snd (env : AuthEnv) (token : String) :
    (get_current_admin_user env token).2 = (get_current_active_user env token).2 := by
  unfold get_current_admin_user
  rcases hg : get_current_active_user env token with ⟨r, n⟩
  cases r <;> rfl

/-- C4: the authentication tiers layer strictly: resolving the current user
yields 401 when decoding fails, when the subject claim is absent, and when
no user with the subject id exists; given a resolved user, the active tier
fails with 400 exactly when the user is inactive, and given an active user,
the admin tier fails with 403 exactly when the user is not an
administrator; and every tier performs exactly one token decoding, the
higher tiers reusing the identity resolved by the tier below. -/
theorem C4_auth_tiers_layering :
    (∀ (env : AuthEnv) (token : String), env.decode token = none →
        (get_current_user env token).1 =
          AuthResult.httpError 401 "No se pudieron validar las credenciales") ∧
    (∀ (env : AuthEnv) (token : String) (p : JwtPayload),
        env.decode token = some p → p.sub = none →
        (get_current_user env token).1 =
          AuthResult.httpError 401 "No se pudieron validar las credenciales") ∧
    (∀ (env : AuthEnv) (token : String) (p : JwtPayload) (uid : Int),
        env.decode token = some p → p.sub = some uid →
        env.users.find? (fun u => u.id == uid) = none →
        (get_current_user env token).1 =
          AuthResult.httpError 401 "No se pudieron validar las credenciales") ∧
    (∀ (env : AuthEnv) (token : String) (u : User),
        (get_current_user env token).1 = AuthResult.ok u →
        ((get_current_active_user env token).1 =
            AuthResult.httpError 400 "Usuario inactivo" ↔ u.is_active = false)) ∧
    (∀ (env : AuthEnv) (token : String) (u : User),
        (get_current_active_user env token).1 = AuthResult.ok u →
        ((get_current_admin_user env token).1 =
            AuthResult.httpError 403 "No tienes permisos suficientes" ↔
          u.is_admin = false)) ∧
    (∀ (env : AuthEnv) (token : String),
        (get_current_user env token).2 = 1 ∧
        (get_current_active_user env token).2 = 1 ∧
        (get_current_admin_user env token).2 = 1) := by
  refine ⟨?_, ?_, ?_, ?_, ?_, ?_⟩
  · intro env token h
    simp [get_current_user, h]
  · intro env token p h1 h2
    simp [get_current_user, h1, h2]
  · intro env token p uid h1 h2 h3
    simp [get_current_user, h1, h2, h3]
  · intro env token u h
    rcases hg : get_current_user env token with ⟨r, n⟩
    rw [hg] at h
    simp only at h
    subst h
    simp only [get_current_active_user, hg]
    cases hu : u.is_active <;> simp
  · intro env token u h
    rcases hg : get_current_active_user env token with ⟨r, n⟩
    rw [hg] at h
    simp only at h
    subst h
    simp only [get_current_admin_user, hg]
    cases hu : u.is_admin <;> simp
  · intro env token
    refine ⟨get_current_user_snd env token, ?_, ?_⟩
    · rw [get_current_active_user_snd]
      exact get_current_user_snd env token
    · rw [get_current_admin_user_snd, get_current_active_user_snd]
      exact get_current_user_snd env token

/-- C4 witness: a concrete environment exercising the 401 branches for a
bad token, a token without a subject, and a token whose subject matches no
user, the 400 equivalence for the inactive user, and the 403 equivalence for
the administrator. -/
theorem C4_witness :
    (get_current_user envW "garbage").1 =
      AuthResult.httpError 401 "No se pudieron validar las credenciales" ∧
    (get_current_user envW "tok-nosub").1 =
      AuthResult.httpError 401 "No se pudieron validar las credenciales" ∧
    (get_current_user envW "tok-ghost").1 =
      AuthResult.httpError 401 "No se pudieron validar las credenciales" ∧
    ((get_current_active_user envW "tok-inactive").1 =
        AuthResult.httpError 400 "Usuario inactivo" ↔
      ({ id := 2, is_active := false, is_admin := false } : User).is_active = false) ∧
    ((get_current_admin_user envW "tok-admin").1 =
        AuthResult.httpError 403 "No tienes permisos suficientes" ↔
      ({ id := 1, is_active := true, is_admin := true } : User).is_admin = false) ∧
    (get_current_admin_user envW "tok-admin").2 = 1 :=
  ⟨C4_auth_tiers_layering.1 envW "garbage" rfl,
   C4_auth_tiers_layering.2.1 envW "tok-nosub" { sub := none } rfl rfl,
   C4_auth_tiers_layering.2.2.1 envW "tok-ghost" { sub := some 99 } 99 rfl rfl (by decide),
   C4_auth_tiers_layering.2.2.2.1 envW "tok-inactive"
     { id := 2, is_active := false, is_admin := false } (by decide),
   C4_auth_tiers_layering.2.2.2.2.1 envW "tok-admin"
     { id := 1, is_active := true, is_admin := true } (by decide),
   (C4_auth_tiers_layering.2.2.2.2.2 envW "tok-admin").2.2⟩

/-- C5: structural validation rejects every payload that is out of stock
with a price amount above 1000 — the root validator yields that error for a
validated payload shape, and a raw payload with those field values never
parses, so the creation endpoint answers 422 without touching the database —
while an out-of-stock payload priced at or below 1000 is never rejected by
this rule. -/
theorem C5_out_of_stock_price_cap :
    (∀ pc : ProductCreate, pc.in_stock = false → pc.price.amount > 1000 →
        validate_business_rules pc =
          Except.error "Productos fuera de stock no pueden tener precio mayor a $1000") ∧
    (∀ (db : DBState) (raw : RawProduct), raw.in_stock = false →
        raw.price.amount > 1000 →
        (productCreateParse raw).isOk = false ∧
        (create_endpoint db raw).2 = db ∧
        ∃ m es, (create_endpoint db raw).1 = CreateResult.failed 422 m es) ∧
    (∀ pc : ProductCreate, pc.in_stock = false → pc.price.amount ≤ 1000 →
        validate_business_rules pc ≠
          Except.error "Productos fuera de stock no pueden tener precio mayor a $1000") := by
  refine ⟨?_, ?_, ?_⟩
  · intro pc h1 h2
    exact stock_rule_error pc h1 h2
  · intro db raw h1 h2
    have hno : ∀ pc, ¬ productCreateParse raw = Except.ok pc := by
      intro pc hp
      obtain ⟨⟨-, -, -, hprice, -, -, -, hstock, -⟩, hvb⟩ := productCreateParse_ok raw pc hp
      rw [stock_rule_error pc (hstock.trans h1) (by rw [hprice]; exact h2)] at hvb
      cases hvb
    cases hp : productCreateParse raw with
    | error e =>
      refine ⟨rfl, by simp [create_endpoint, hp], ?_⟩
      exact ⟨"Error de validación en los datos enviados", [("detail", e)],
             by simp [create_endpoint, hp]⟩
    | ok pc => exact absurd hp (hno pc)
  · intro pc h1 h2
    unfold validate_business_rules
    rw [if_neg]
    · intro hcon
      split at hcon
      · split at hcon
        · injection hcon with hcon
          exact absurd hcon (by decide)
        · cases hcon
      · cases hcon
    · rintro ⟨-, hb⟩
      exact absurd hb (not_lt.mpr h2)

/-- C5 witness: the rule fires on an out-of-stock payload priced 2000, the
endpoint rejects its raw form on the empty database without persisting, and
the rule stays silent on an out-of-stock payload priced 900. -/
theorem C5_witness :
    validate_business_rules pcStock =
      Except.error "Productos fuera de stock no pueden tener precio mayor a $1000" ∧
    ((productCreateParse rawStock).isOk = false ∧
     (create_endpoint db0 rawStock).2 = db0 ∧
     ∃ m es, (create_endpoint db0 rawStock).1 = CreateResult.failed 422 m es) ∧
    validate_business_rules pcStockOk ≠
      Except.error "Productos fuera de stock no pueden tener precio mayor a $1000" :=
  ⟨C5_out_of_stock_price_cap.1 pcStock rfl (by decide),
   C5_out_of_stock_price_cap.2.1 db0 rawStock rfl (by decide),
   C5_out_of_stock_price_cap.2.2 pcStockOk rfl (by decide)⟩

/-- C6: structural validation rejects every payload whose present dimensions
multiply to a volume above 100000 cubic cm while its images list is empty or
absent — the root validator fails on such a validated shape, and a raw
payload with those field values never parses, so the creation endpoint
leaves the database untouched — while a payload at or below that volume, or
with at least one image, is never rejected by this rule. -/
theorem C6_volume_requires_image :
    (∀ (pc : ProductCreate) (d : DimensionsSchema), pc.dimensions = some d →
        d.width * d.height * d.depth > 100000 → pc.images.getD [] = [] →
        (validate_business_rules pc).isOk = false) ∧
    (∀ (db : DBState) (raw : RawProduct) (d : DimensionsSchema),
        raw.dimensions = some d → d.width * d.height * d.depth > 100000 →
        raw.images.getD [] = [] →
        (productCreateParse raw).isOk = false ∧ (create_endpoint db raw).2 = db) ∧
    (∀ (pc : ProductCreate) (d : DimensionsSchema), pc.dimensions = some d →
        (d.width * d.height * d.depth ≤ 100000 ∨ pc.images.getD [] ≠ []) →
        validate_business_rules pc ≠
          Except.error "Productos grandes requieren al menos una imagen") := by
  refine ⟨?_, ?_, ?_⟩
  · intro pc d hd hv hi
    exact volume_rule_rejects pc d hd hv hi
  · intro db raw d hd hv hi
    have hno : ∀ pc, ¬ productCreateParse raw = Except.ok pc := by
      intro pc hp
      obtain ⟨⟨-, -, -, -, -, hdims, himgs, -, -⟩, hvb⟩ := productCreateParse_ok raw pc hp
      have hrej := volume_rule_rejects pc d (hdims.trans hd) hv (by rw [himgs]; exact hi)
      rw [hvb] at hrej
      cases hrej
    cases hp : productCreateParse raw with
    | error e => exact ⟨rfl, by simp [create_endpoint, hp]⟩
    | ok pc => exact absurd hp (hno pc)
  · intro pc d hd h
    intro hcon
    unfold validate_business_rules at hcon
    split at hcon
    · injection hcon with hcon
      exact absurd hcon (by decide)
    · rw [hd] at hcon
      simp only at hcon
      split at hcon
      · rename_i hcond
        rcases h with h | h
        · exact absurd hcond.1 (not_lt.mpr h)
        · exact h hcond.2
      · cases hcon

/-- C6 witness: the rule fires on a 50 by 50 by 50 payload without images,
the endpoint rejects its raw form on the empty database, and the same large
payload with one image attached is not rejected by this rule. -/
theorem C6_witness :
    (validate_business_rules pcBig).isOk = false ∧
    ((productCreateParse rawBig).isOk = false ∧ (create_endpoint db0 rawBig).2 = db0) ∧
    validate_business_rules pcBigImg ≠
      Except.error "Productos grandes requieren al menos una imagen" :=
  ⟨C6_volume_requires_image.1 pcBig { width := 50, height := 50, depth := 50 }
     rfl (by norm_num) rfl,
   C6_volume_requires_image.2.1 db0 rawBig { width := 50, height := 50, depth := 50 }
     rfl (by norm_num) rfl,
   C6_volume_requires_image.2.2 pcBigImg { width := 50, height := 50, depth := 50 }
     rfl (Or.inr (by decide))⟩

/-- C7: a tag is rejected when it is empty after stripping or longer than
30 characters; an accepted tag is returned stripped and lowercased; and the
tag list as a whole is rejected when its normalized form contains duplicates
or when it has more than 10 entries. -/
theorem C7_tag_validation :
    (∀ t : String, pyStrip t = "" ∨ t.length > 30 →
        (validate_tags t).isOk = false) ∧
    (∀ t r : String, validate_tags t = Except.ok r → r = pyLower (pyStrip t)) ∧
    (∀ ts : List String,
        ¬ (ts.map (fun t => pyLower (pyStrip t))).Nodup →
        (tags_pipeline ts).isOk = false) ∧
    (∀ ts : List String, ts.length > 10 → (tags_pipeline ts).isOk = false) := by
  refine ⟨?_, ?_, ?_, ?_⟩
  · intro t h
    unfold validate_tags
    rcases h with h | h
    · rw [if_pos h]
      rfl
    · split <;> rfl
  · intro t r h
    exact validate_tags_ok t r h
  · intro ts hnd
    unfold tags_pipeline
    cases hm : mapExcept validate_tags ts with
    | error e => rfl
    | ok ntags =>
      have hnt := mapExcept_validate_tags_ok _ _ hm
      have hne : ntags.length ≠ ntags.dedup.length := by
        intro hlen
        have hded : ntags.dedup = ntags :=
          List.Sublist.eq_of_length (List.dedup_sublist ntags) hlen.symm
        have hnodup : ntags.Nodup := List.dedup_eq_self.mp hded
        rw [hnt] at hnodup
        exact hnd hnodup
      show (validate_tags_uniqueness ntags).isOk = false
      unfold validate_tags_uniqueness
      rw [if_pos hne]
      rfl
  · intro ts hlen
    unfold tags_pipeline
    cases hm : mapExcept validate_tags ts with
    | error e => rfl
    | ok ntags =>
      have hnt := mapExcept_validate_tags_ok _ _ hm
      have hlen2 : ntags.length = ts.length := by
        rw [hnt]
        exact List.length_map ts _
      show (validate_tags_uniqueness ntags).isOk = false
      unfold validate_tags_uniqueness
      split
      · rfl
      · rw [if_pos (by rw [hlen2]; exact hlen)]
        rfl

/-- C7 witness: a blank tag and an overlong tag are rejected, an accepted
tag is normalized, a list whose normalized tags collide is rejected, and an
eleven-tag list is rejected. -/
theorem C7_witness :
    (validate_tags "   ").isOk = false ∧
    (validate_tags "aaaaaaaaaaaaaaaaaaaaaaaaaaaaaaaaa").isOk = false ∧
    "hola" = pyLower (pyStrip " HoLa ") ∧
    (tags_pipeline ["Rojo", " rojo "]).isOk = false ∧
    (tags_pipeline ["t01", "t02", "t03", "t04", "t05", "t06", "t07", "t08",
                    "t09", "t10", "t11"]).isOk = false :=
  ⟨C7_tag_validation.1 "   " (Or.inl (by decide)),
   C7_tag_validation.1 "aaaaaaaaaaaaaaaaaaaaaaaaaaaaaaaaa" (Or.inr (by decide)),
   C7_tag_validation.2.1 " HoLa " "hola" rfl,
   C7_tag_validation.2.2.1 ["Rojo", " rojo "] (by decide),
   C7_tag_validation.2.2.2 ["t01", "t02", "t03", "t04", "t05", "t06", "t07",
                            "t08", "t09", "t10", "t11"] (by decide)⟩

/-- C9 counterexample: the structurally valid payload pcNullImages, whose
images field is null, is created successfully, but the returned images field
is the empty list rather than the submitted null value, so not every field
of the response equals the corresponding field of the submitted validated
input. -/
theorem C9_counterexample :
    productCreateParse rawNullImages = Except.ok pcNullImages ∧
    (create_product db0 pcNullImages).1 =
      CreateResult.created 201 (to_response (service_create_product db0 pcNullImages).1) ∧
    (to_response (service_create_product db0 pcNullImages).1).images ≠
      pcNullImages.images :=
  ⟨rfl, rfl, by decide⟩

/-- C9 as amended: for every validated payload, the creation service
returns a response whose name, sku, description, price amount, price
currency, tags, dimensions, stock flag and category id equal the submitted
validated values, and whose images field is the submitted images list with
a null value normalized to the empty list. -/
theorem C9_create_round_trip (db : DBState) (pc : ProductCreate) :
    (to_response (service_create_product db pc).1).name = pc.name ∧
    (to_response (service_create_product db pc).1).sku = pc.sku ∧
    (to_response (service_create_product db pc).1).description = pc.description ∧
    (to_response (service_create_product db pc).1).price.amount = pc.price.amount ∧
    (to_response (service_create_product db pc).1).price.currency = pc.price.currency ∧
    (to_response (service_create_product db pc).1).tags = pc.tags ∧
    (to_response (service_create_product db pc).1).dimensions = pc.dimensions ∧
    (to_response (service_create_product db pc).1).in_stock = pc.in_stock ∧
    (to_response (service_create_product db pc).1).category_id = pc.category_id ∧
    (to_response (service_create_product db pc).1).images = some (pc.images.getD []) := by
  refine ⟨rfl, rfl, rfl, rfl, rfl, ?_, rfl, rfl, rfl, ?_⟩
  · exact ite_isEmpty_self _
  · exact congrArg some (ite_isEmpty_self _)

/-- C10: the submitted name is rejected by structural validation whenever
its lowercased, stripped form is one of the forbidden generic words, both at
the validator and for the whole parse; an accepted name is returned stripped
and title-cased; and any payload that parses carries the normalized name, so
the uniqueness check and persistence only ever see the normalized form. -/
theorem C10_name_normalization :
    (∀ v : String, pyStrip (pyLower v) ∈ forbidden_words →
        validate_name v =
          Except.error "El nombre no puede ser una palabra genérica") ∧
    (∀ v r : String, validate_name v = Except.ok r → r = pyTitle (pyStrip v)) ∧
    (∀ raw : RawProduct, pyStrip (pyLower raw.name) ∈ forbidden_words →
        (productCreateParse raw).isOk = false) ∧
    (∀ (raw : RawProduct) (pc : ProductCreate),
        productCreateParse raw = Except.ok pc →
        pc.name = pyTitle (pyStrip raw.name)) := by
  refine ⟨?_, ?_, ?_, ?_⟩
  · intro v h
    exact validate_name_forbidden v h
  · intro v r h
    exact validate_name_ok v r h
  · intro raw h
    have hv := validate_name_forbidden raw.name h
    unfold productCreateParse
    cases hf : parseFields raw with
    | error e => rfl
    | ok p =>
      exfalso
      unfold parseFields at hf
      split at hf
      · cases hf
      · rw [hv] at hf
        cases hf
  · intro raw pc hp
    exact (productCreateParse_ok raw pc hp).1.1

/-- C10 witness: the forbidden name ITEM with surrounding blanks is
rejected by the validator and by the whole parse, and the accepted name
mesa de luz with surrounding blanks is normalized to Mesa De Luz, as is the
name of the payload rawSilla through the full parse. -/
theorem C10_witness :
    validate_name " ITEM " =
      Except.error "El nombre no puede ser una palabra genérica" ∧
    "Mesa De Luz" = pyTitle (pyStrip "  mesa de luz ") ∧
    (productCreateParse rawItem).isOk = false ∧
    pcSilla.name = pyTitle (pyStrip rawSilla.name) :=
  ⟨C10_name_normalization.1 " ITEM " (by decide),
   C10_name_normalization.2.1 "  mesa de luz " "Mesa De Luz" rfl,
   C10_name_normalization.2.2.1 rawItem (by decide),
   C10_name_normalization.2.2.2 rawSilla pcSilla rfl⟩
